import Mathlib

/-!
Verification of the Cumulus monthly-log import source
(`bin/weeimport/cumulusimport.py`).

The Python module is shallowly embedded below: every definition mirrors a
piece of the source file (string primitives mirror the Python `str` builtins
the source calls), and the theorems at the end of the file settle the frozen
claims about the module.  Machine integers do not occur in this module; all
data is strings and lists.
-/

namespace Cumulus

/-! ## Python string primitives

The source calls `str.replace(old, new)`, `str.replace(old, new, 1)` and the
CSV splitter on a single-character delimiter.  They are modelled on `List Char`
(a Lean `String` is a structure holding such a list).  `replAll` mirrors
Python `s.replace(pat, repl)`: scan left to right, replace every
non-overlapping occurrence; an empty pattern inserts `repl` at every
position, as Python does.  `replFirst` mirrors `s.replace(pat, repl, 1)`. -/

def replAllGo (pat repl : List Char) : Nat → List Char → List Char
  | _, [] => if List.isPrefixOf pat [] then repl else []
  | 0, s => s
  | fuel + 1, c :: rest =>
    if pat.isEmpty then
      repl ++ c :: replAllGo pat repl fuel rest
    else if pat.isPrefixOf (c :: rest) then
      repl ++ replAllGo pat repl fuel (rest.drop (pat.length - 1))
    else
      c :: replAllGo pat repl fuel rest

/-- Python `s.replace(pat, repl)` on character lists.  The scan consumes at
least one character per step, so `s.length` steps always suffice; the step
counter only makes the recursion structural, it never runs out before the
scan ends. -/
def replAll (pat repl s : List Char) : List Char :=
  replAllGo pat repl s.length s

def replFirst (pat repl : List Char) : List Char → List Char
  | [] => if List.isPrefixOf pat [] then repl else []
  | c :: rest =>
    if pat.isPrefixOf (c :: rest) then repl ++ List.drop pat.length (c :: rest)
    else c :: replFirst pat repl rest

/-- Split a character list at every occurrence of the character `c`; the
semantics of Python `s.split(c)` for a one-character separator (which is what
the `csv` reader does with a one-character delimiter on a quote-free line). -/
def splitChar (c : Char) : List Char → List (List Char)
  | [] => [[]]
  | x :: rest =>
    let r := splitChar c rest
    if x = c then [] :: r
    else (x :: r.headD []) :: r.tail

/-- Python `s[-i:-j]` (for `j = 0` read `s[-i:]`): take up to position
`len - j`, then drop the first `len - i` characters.  Clamps at the left end
exactly as Python slicing does. -/
def pySliceNeg (s : String) (i j : Nat) : String :=
  String.mk ((s.data.take (s.data.length - j)).drop (s.data.length - i))

/-- Python `s.replace(pat, repl)` on `String`. -/
def pyReplace (s pat repl : String) : String :=
  String.mk (replAll pat.data repl.data s.data)

/-- Python `s.replace(pat, repl, 1)` on `String`. -/
def pyReplaceFirst (s pat repl : String) : String :=
  String.mk (replFirst pat.data repl.data s.data)

/-- Splitting a `String` by a one-character delimiter. -/
def pySplit (c : Char) (s : String) : List String :=
  (splitChar c s.data).map String.mk

/-! ## Raw-data cleanup (`CumulusSource.getRawData`, lines 274-286)

For every line read from the monthly log: replace the configured decimal
separator by a full stop; drop the line if the result is the blank line
(`readlines` renders a blank line as the single character `"\n"`); otherwise
replace the first occurrence of the field delimiter by a space (merging the
date and time fields) and keep the line.  The `csv` module requires the
delimiter to be a one-character string, so it is modelled as a `Char`. -/

def cleanData (decimal : String) (delim : Char) : List String → List String
  | [] => []
  | row :: rest =>
    let line := pyReplace row decimal "."
    if line ≠ "\n" then
      pyReplaceFirst line (String.mk [delim]) " " :: cleanData decimal delim rest
    else
      cleanData decimal delim rest

/-- The reshaping of a field list that merging the date and time fields
performs: the first two fields become one field joined by a single space;
on lists of fewer than two fields, nothing changes. -/
def mergeFirstTwo : List String → List String
  | f0 :: f1 :: fs => (f0 ++ " " ++ f1) :: fs
  | l => l

/-! ## Static tables (lines 28 and 52-87)

`rain_units_dict`, `_field_list` and the class attribute `_header_map` of
`CumulusSource`.  An `_header_map` entry carries an optional unit name and
the weewx archive field it maps to; the key set of the dictionary is static,
so the dictionary is embedded as a structure with one field per key. -/

def rain_units_dict : List (String × String) :=
  [("inch", "inch_per_hour"), ("mm", "mm_per_hour")]

def _field_list : List String :=
  ["datetime", "cur_out_temp", "cur_out_hum",
   "cur_dewpoint", "avg_wind_speed", "gust_wind_speed",
   "avg_wind_bearing", "cur_rain_rate", "day_rain", "cur_slp",
   "rain_counter", "curr_in_temp", "cur_in_hum",
   "lastest_wind_gust", "cur_windchill", "cur_heatindex",
   "cur_uv", "cur_solar", "cur_et", "annual_et",
   "cur_app_temp", "cur_tmax_solar", "day_sunshine_hours",
   "cur_wind_bearing", "day_rain_rg11", "midnight_rain"]

structure Entry where
  units : Option String
  map_to : String
deriving DecidableEq, Repr

structure HeaderMap where
  datetime : Entry
  cur_out_temp : Entry
  curr_in_temp : Entry
  cur_dewpoint : Entry
  cur_slp : Entry
  avg_wind_bearing : Entry
  avg_wind_speed : Entry
  cur_heatindex : Entry
  gust_wind_speed : Entry
  cur_windchill : Entry
  cur_out_hum : Entry
  cur_in_hum : Entry
  midnight_rain : Entry
  cur_rain_rate : Entry
  cur_solar : Entry
  cur_uv : Entry
  cur_app_temp : Entry
deriving DecidableEq, Repr

/-- The value of `CumulusSource._header_map` as written in the class body
(before any construction fills in the user-configured units). -/
def _header_map : HeaderMap where
  datetime := ⟨some "unix_epoch", "dateTime"⟩
  cur_out_temp := ⟨none, "outTemp"⟩
  curr_in_temp := ⟨none, "inTemp"⟩
  cur_dewpoint := ⟨none, "dewpoint"⟩
  cur_slp := ⟨none, "barometer"⟩
  avg_wind_bearing := ⟨some "degree_compass", "windDir"⟩
  avg_wind_speed := ⟨none, "windSpeed"⟩
  cur_heatindex := ⟨none, "heatindex"⟩
  gust_wind_speed := ⟨none, "windGust"⟩
  cur_windchill := ⟨none, "windchill"⟩
  cur_out_hum := ⟨some "percent", "outHumidity"⟩
  cur_in_hum := ⟨some "percent", "inHumidity"⟩
  midnight_rain := ⟨none, "rain"⟩
  cur_rain_rate := ⟨none, "rainRate"⟩
  cur_solar := ⟨some "watt_per_meter_squared", "radiation"⟩
  cur_uv := ⟨some "uv_index", "UV"⟩
  cur_app_temp := ⟨none, "appTemp"⟩

/-- Dictionary lookup `_header_map[name]` by field-name string. -/
def headerMapGet (m : HeaderMap) : String → Option Entry
  | "datetime" => some m.datetime
  | "cur_out_temp" => some m.cur_out_temp
  | "curr_in_temp" => some m.curr_in_temp
  | "cur_dewpoint" => some m.cur_dewpoint
  | "cur_slp" => some m.cur_slp
  | "avg_wind_bearing" => some m.avg_wind_bearing
  | "avg_wind_speed" => some m.avg_wind_speed
  | "cur_heatindex" => some m.cur_heatindex
  | "gust_wind_speed" => some m.gust_wind_speed
  | "cur_windchill" => some m.cur_windchill
  | "cur_out_hum" => some m.cur_out_hum
  | "cur_in_hum" => some m.cur_in_hum
  | "midnight_rain" => some m.midnight_rain
  | "cur_rain_rate" => some m.cur_rain_rate
  | "cur_solar" => some m.cur_solar
  | "cur_uv" => some m.cur_uv
  | "cur_app_temp" => some m.cur_app_temp
  | _ => none

/-! ## Unit resolution (`CumulusSource.__init__`, lines 129-187)

The `[Units]` section of the import configuration.  A `configobj` section is
a dictionary: `cumulus_config_dict['Units']` raises `KeyError` when the
section is absent (caught by the bare `except`, giving the
"No units specified" `weewx.UnitError`), and `.get('temperature')` returns
`None` when the key is absent inside a present section.  Both absences are
embedded as `Option`.

The allowed sets are exactly the ones the source checks: membership of the
declared string in `weewx.units.default_unit_format_dict` for temperature
and speed, in the literal list `['inHg', 'mbar', 'hPa']` for pressure, and in
`rain_units_dict` for rain.  `weewx.units` is not under `src/`, so the key
set of `default_unit_format_dict` is kept abstract as a parameter
`fmtKeys` of the resolution functions. -/

structure UnitsSection where
  temperature : Option String
  pressure : Option String
  rain : Option String
  speed : Option String
deriving DecidableEq, Repr

/-- Python `'%s' % u` where `u` is the result of a `.get` call: `None`
renders as the string `"None"`. -/
def renderPyOpt : Option String → String
  | none => "None"
  | some s => s

/-- Python `u in keys` where `u` may be `None`: `None` is a member of no
string-keyed dictionary. -/
def optMem (u : Option String) (keys : List String) : Bool :=
  match u with
  | some s => keys.contains s
  | none => false

def noUnitsMsg (q path : String) : String :=
  "No units specified for Cumulus " ++ q ++ " fields in " ++ path ++ "."

def unknownUnitsMsg (q u path : String) : String :=
  "Unknown units " ++ "'" ++ u ++ "'" ++ " specified for Cumulus " ++ q ++
    " fields in " ++ path ++ "."

/-- Lines 129-145: resolve the declared temperature unit, filling the six
temperature entries of the header map, or fail with a `weewx.UnitError`
(embedded as the error message string). -/
def resolveTemperature (fmtKeys : List String) (path : String)
    (units : Option UnitsSection) (m : HeaderMap) : Except String HeaderMap :=
  match units with
  | none => .error (noUnitsMsg "temperature" path)
  | some ud =>
    if optMem ud.temperature fmtKeys then
      .ok { m with
        cur_out_temp := { m.cur_out_temp with units := ud.temperature }
        curr_in_temp := { m.curr_in_temp with units := ud.temperature }
        cur_dewpoint := { m.cur_dewpoint with units := ud.temperature }
        cur_heatindex := { m.cur_heatindex with units := ud.temperature }
        cur_windchill := { m.cur_windchill with units := ud.temperature }
        cur_app_temp := { m.cur_app_temp with units := ud.temperature } }
    else
      .error (unknownUnitsMsg "temperature" (renderPyOpt ud.temperature) path)

/-- Lines 146-158: resolve the declared pressure unit against the literal
allowed list `['inHg', 'mbar', 'hPa']`, filling the barometer entry. -/
def resolvePressure (path : String) (units : Option UnitsSection)
    (m : HeaderMap) : Except String HeaderMap :=
  match units with
  | none => .error (noUnitsMsg "pressure" path)
  | some ud =>
    if optMem ud.pressure ["inHg", "mbar", "hPa"] then
      .ok { m with cur_slp := { m.cur_slp with units := ud.pressure } }
    else
      .error (unknownUnitsMsg "pressure" (renderPyOpt ud.pressure) path)

/-- Lines 159-173: resolve the declared rain accumulation unit against the
keys of `rain_units_dict`, filling the rain entry with the declared unit and
the rain-rate entry with the looked-up per-hour unit. -/
def resolveRain (path : String) (units : Option UnitsSection)
    (m : HeaderMap) : Except String HeaderMap :=
  match units with
  | none => .error (noUnitsMsg "rain" path)
  | some ud =>
    if optMem ud.rain (rain_units_dict.map Prod.fst) then
      .ok { m with
        midnight_rain := { m.midnight_rain with units := ud.rain }
        cur_rain_rate := { m.cur_rain_rate with
          units := ud.rain.bind (fun u => rain_units_dict.lookup u) } }
    else
      .error (unknownUnitsMsg "rain" (renderPyOpt ud.rain) path)

/-- Lines 174-187: resolve the declared wind-speed unit, filling the two
wind-speed entries. -/
def resolveSpeed (fmtKeys : List String) (path : String)
    (units : Option UnitsSection) (m : HeaderMap) : Except String HeaderMap :=
  match units with
  | none => .error (noUnitsMsg "speed" path)
  | some ud =>
    if optMem ud.speed fmtKeys then
      .ok { m with
        avg_wind_speed := { m.avg_wind_speed with units := ud.speed }
        gust_wind_speed := { m.gust_wind_speed with units := ud.speed } }
    else
      .error (unknownUnitsMsg "speed" (renderPyOpt ud.speed) path)

/-- The unit-resolution part of `CumulusSource.__init__` (lines 129-187):
the four quantities are resolved in source order, each one mutating the
shared class-level `_header_map`; the first failure aborts construction.
The map is threaded as explicit state because the Python item assignments
`self._header_map[...][...] = ...` mutate the dictionary object referenced
by the class attribute (no instance attribute is ever assigned), so every
instance reads and writes the same dictionary. -/
def resolveUnits (fmtKeys : List String) (path : String)
    (units : Option UnitsSection) (m : HeaderMap) : Except String HeaderMap := do
  let m1 ← resolveTemperature fmtKeys path units m
  let m2 ← resolvePressure path units m1
  let m3 ← resolveRain path units m2
  resolveSpeed fmtKeys path units m3

/-! ## Example configurations

Concrete inputs used by the witness theorems: a plausible key set for
`weewx.units.default_unit_format_dict`, two `[Units]` sections that differ in
the temperature unit, and the header maps that resolution produces from
them. -/

def exampleFmtKeys : List String :=
  ["degree_C", "degree_F", "km_per_hour"]

def exampleUnits1 : UnitsSection :=
  ⟨some "degree_C", some "hPa", some "mm", some "km_per_hour"⟩

def exampleUnits2 : UnitsSection :=
  ⟨some "degree_F", some "hPa", some "mm", some "km_per_hour"⟩

def exampleMap1 : HeaderMap :=
  { _header_map with
    cur_out_temp := ⟨some "degree_C", "outTemp"⟩
    curr_in_temp := ⟨some "degree_C", "inTemp"⟩
    cur_dewpoint := ⟨some "degree_C", "dewpoint"⟩
    cur_heatindex := ⟨some "degree_C", "heatindex"⟩
    cur_windchill := ⟨some "degree_C", "windchill"⟩
    cur_app_temp := ⟨some "degree_C", "appTemp"⟩
    cur_slp := ⟨some "hPa", "barometer"⟩
    midnight_rain := ⟨some "mm", "rain"⟩
    cur_rain_rate := ⟨some "mm_per_hour", "rainRate"⟩
    avg_wind_speed := ⟨some "km_per_hour", "windSpeed"⟩
    gust_wind_speed := ⟨some "km_per_hour", "windGust"⟩ }

def exampleMap2 : HeaderMap :=
  { exampleMap1 with
    cur_out_temp := ⟨some "degree_F", "outTemp"⟩
    curr_in_temp := ⟨some "degree_F", "inTemp"⟩
    cur_dewpoint := ⟨some "degree_F", "dewpoint"⟩
    cur_heatindex := ⟨some "degree_F", "heatindex"⟩
    cur_windchill := ⟨some "degree_F", "windchill"⟩
    cur_app_temp := ⟨some "degree_F", "appTemp"⟩ }

/-! ## Period catalog (`CumulusSource.__init__`, lines 189-202)

`glob.glob(self.source + '/?????log.txt')` lists the files of the source
directory whose basename is five arbitrary characters followed by
`log.txt` (a `?` wildcard never matches a leading dot, nor the slash).
Each name is keyed by the pair `(fn[-9:-7], strptime(fn[-12:-9], '%b').tm_mon)`
— the two-character year fragment compared as a string, and the month number
obtained from the case-insensitive three-letter month abbreviation — and the
list is sorted by that key.  `time.strptime` raises `ValueError` on an
unparsable abbreviation, which no `except` catches; that outcome is the
`none` of `sortLogList`.  Python's `sorted` and `List.insertionSort` are both
stable, hence produce the same list. -/

def monthAbbrevs : List (String × Nat) :=
  [("jan", 1), ("feb", 2), ("mar", 3), ("apr", 4), ("may", 5), ("jun", 6),
   ("jul", 7), ("aug", 8), ("sep", 9), ("oct", 10), ("nov", 11), ("dec", 12)]

/-- ASCII lowercasing, character by character, as `str.lower` does on the
month abbreviations at hand. -/
def pyLower (s : String) : String :=
  String.mk (s.data.map Char.toLower)

/-- `time.strptime(s, '%b').tm_mon`: the month abbreviations of the C locale,
matched case-insensitively. -/
def strptimeMonth (s : String) : Option Nat :=
  monthAbbrevs.lookup (pyLower s)

/-- The list comprehension of line 197: pair every file name with its year
fragment and month number; a `ValueError` from `strptime` aborts the whole
comprehension. -/
def buildTemp : List String → Option (List (String × String × Nat))
  | [] => some []
  | fn :: rest =>
    match strptimeMonth (pySliceNeg fn 12 9), buildTemp rest with
    | some mo, some t => some ((fn, pySliceNeg fn 9 7, mo) :: t)
    | _, _ => none

/-- Python string comparison: lexicographic on the code points of the
characters. -/
def pyStrLt (a b : String) : Prop :=
  a.data < b.data

instance : DecidableRel pyStrLt := fun a b =>
  inferInstanceAs (Decidable (a.data < b.data))

/-- The sort key comparison of lines 198-199: Python tuples
`(el[1], el[2])` compare lexicographically. -/
def keyLE (a b : String × String × Nat) : Prop :=
  pyStrLt a.2.1 b.2.1 ∨ (a.2.1 = b.2.1 ∧ a.2.2 ≤ b.2.2)

instance : DecidableRel keyLE := fun a b =>
  inferInstanceAs
    (Decidable (pyStrLt a.2.1 b.2.1 ∨ (a.2.1 = b.2.1 ∧ a.2.2 ≤ b.2.2)))

/-- Lines 196-199: the sorted monthly-log list (`self.log_list`), `none`
when `strptime` raises on some file name. -/
def sortLogList (files : List String) : Option (List String) :=
  (buildTemp files).map
    (fun temp => (temp.insertionSort keyLE).map (fun a => a.1))

/-- Whether a directory entry matches the glob pattern `?????log.txt`. -/
def globMatch (fn : String) : Bool :=
  fn.length == 12 && pySliceNeg fn 7 0 == "log.txt" && !(fn.startsWith ".")

/-- Lines 196-202: list the matching files of the source directory, sort
them, and fail with `weeimport.WeeImportIOError` when nothing matched.
The outer `Option` is the uncaught `ValueError` of `strptime`; no file is
opened anywhere in `__init__`, so the embedding has no file-content
input. -/
def cumulusLogCatalog (source : String) (dirFiles : List String) :
    Option (Except String (List String)) :=
  match sortLogList ((dirFiles.filter globMatch).map
      (fun fn => source ++ "/" ++ fn)) with
  | none => none
  | some log_list =>
    some (if log_list.length = 0 then
      Except.error
        ("No Cumulus monthly logs found in directory '" ++ source ++ "'.")
    else Except.ok log_list)

/-- The chronological key of a file name, at the `String` level: year
fragment and month number (`0` standing for an unparsable abbreviation,
which `sortLogList` has already ruled out when it returns `some`). -/
def fileKey (fn : String) : String × Nat :=
  (pySliceNeg fn 9 7, (strptimeMonth (pySliceNeg fn 12 9)).getD 0)

/-- Ascending order of the two-part chronological keys. -/
def fileKeyLE (a b : String) : Prop :=
  pyStrLt (fileKey a).1 (fileKey b).1 ∨
    ((fileKey a).1 = (fileKey b).1 ∧ (fileKey a).2 ≤ (fileKey b).2)

instance : DecidableRel fileKeyLE := fun a b =>
  inferInstanceAs
    (Decidable (pyStrLt (fileKey a).1 (fileKey b).1 ∨
      ((fileKey a).1 = (fileKey b).1 ∧ (fileKey a).2 ≤ (fileKey b).2)))

/-! ## Period generator (`CumulusSource.period_generator`, lines 296-311)

Yields the file names of `self.log_list` in order, setting
`self.first_period` and `self.last_period` by comparing the yielded value
with `self.log_list[0]` and `self.log_list[-1]`.  Each yield is embedded as
the triple (first-period flag, last-period flag, file name); the subscripts
are only evaluated when the list is non-empty, so total defaults are
safe. -/

def period_generator (log_list : List String) : List (Bool × Bool × String) :=
  log_list.map
    (fun month =>
      (decide (month = log_list.headD ""),
       decide (month = log_list.getLastD ""), month))

/-! ## The dictionary reader and the field map (`getRawData`, lines 288-294)

`csv.DictReader(clean_data, fieldnames=self._field_list, delimiter=...)`
pairs the positional values of each cleaned line with `_field_list`; a short
row leaves the remaining field names bound to the `restval`, `None`.  The
reader strips the line terminator; quoting does not occur in Cumulus logs.
Each parsed row is a list of (field name, optional raw value) pairs. -/

def stripNewline (cs : List Char) : List Char :=
  if cs.getLast? = some '\n' then cs.dropLast else cs

def dictReaderRow (delim : Char) (line : String) :
    List (String × Option String) :=
  let vals := (splitChar delim (stripNewline line.data)).map String.mk
  _field_list.enum.map (fun p => (p.2, vals.get? p.1))

def dictReaderRows (delim : Char) (lines : List String) :
    List (List (String × Option String)) :=
  lines.map (fun l => dictReaderRow delim l)

/-- Modelled from the spec: the parent-class method `weeimport.Source.parseMap`
is not under `src/`.  Per spec section 4.4, the mapping binds every canonical
source field name that the reader will encounter — the columns actually
present (bound to a value) in the period's parsed rows — to its destination
field name and resolved unit from the static table; a source field with no
table entry is excluded from the mapping. -/
def parseMap (hm : HeaderMap) (rows : List (List (String × Option String))) :
    List (String × String × Option String) :=
  (_field_list.filter
      (fun f => rows.any
        (fun r => match r.lookup f with
          | some (some _) => true
          | _ => false))).filterMap
    (fun f => (headerMapGet hm f).map (fun e => (f, e.map_to, e.units)))

/-- The per-instance mutable state that `getRawData` touches: `self.map`
(initialised to `None` on line 120). -/
structure RunState where
  map : Option (List (String × String × Option String))
deriving DecidableEq, Repr

/-- Lines 273-294 of `getRawData`, given the lines of the period file (the
file read itself is the collaborator supplying `raw_data`): clean the raw
lines, build the dictionary reader over them, and assign
`self.map = self.parseMap(...)` — unconditionally, on every call.  Returns
the updated state and the reader's rows. -/
def getRawData (decimal : String) (delim : Char) (hm : HeaderMap)
    (st : RunState) (raw_data : List String) :
    RunState × List (List (String × Option String)) :=
  let clean_data := cleanData decimal delim raw_data
  let rows := dictReaderRows delim clean_data
  ({ st with map := some (parseMap hm rows) }, rows)

end Cumulus

namespace Cumulus

/-! ## Theorems -/

theorem splitChar_ne_nil (c : Char) (l : List Char) : splitChar c l ≠ [] := by
  cases l with
  | nil => simp [splitChar]
  | cons x rest =>
    simp only [splitChar]
    by_cases h : x = c <;> simp [h]

theorem splitChar_replFirst (c : Char) (hc : c ≠ ' ') :
    ∀ l : List Char,
      splitChar c (replFirst [c] [' '] l) =
        match splitChar c l with
        | f0 :: f1 :: fs => (f0 ++ ' ' :: f1) :: fs
        | r => r := by
  intro l
  induction l with
  | nil => simp [replFirst, splitChar]
  | cons x rest ih =>
    by_cases hx : x = c
    · subst hx
      have hpre : List.isPrefixOf [x] (x :: rest) = true := by
        simp [List.isPrefixOf]
      simp only [replFirst, hpre, if_pos]
      have hr := splitChar_ne_nil x rest
      rcases hrest : splitChar x rest with _ | ⟨f, fs⟩
      · exact absurd hrest hr
      · simp [splitChar, hrest, hc, Ne.symm hc]
    · have hpre : List.isPrefixOf [c] (x :: rest) = false := by
        simp [List.isPrefixOf, Ne.symm hx]
      simp only [replFirst, hpre]
      rw [if_neg (by simp [hpre])]
      have hr := splitChar_ne_nil c rest
      have hr2 := splitChar_ne_nil c (replFirst [c] [' '] rest)
      rcases hrest : splitChar c rest with _ | ⟨f, fs⟩
      · exact absurd hrest hr
      · rcases fs with _ | ⟨f1, fs'⟩
        · simp [splitChar, hx, ih, hrest]
        · simp [splitChar, hx, ih, hrest]

theorem mem_splitChar_length (c : Char) :
    ∀ l : List Char, c ∈ l → 2 ≤ (splitChar c l).length := by
  intro l
  induction l with
  | nil => simp
  | cons x rest ih =>
    intro hmem
    by_cases hx : x = c
    · subst hx
      have := splitChar_ne_nil x rest
      simp only [splitChar]
      rcases hr : splitChar x rest with _ | ⟨f, fs⟩
      · exact absurd hr this
      · simp
    · have hmem' : c ∈ rest := by
        rcases List.mem_cons.mp hmem with h | h
        · exact absurd h.symm hx
        · exact h
      have h2 := ih hmem'
      simp only [splitChar, if_neg hx]
      rcases hr : splitChar c rest with _ | ⟨f, fs⟩
      · exact absurd hr (splitChar_ne_nil c rest)
      · rw [hr] at h2
        simpa using h2

theorem mk_append (a b : List Char) :
    String.mk a ++ String.mk b = String.mk (a ++ b) := rfl

/-- C5 (amended): for a one-character field delimiter `c` other than the
space character (the `csv` module restricts the configured delimiter to one
character) and a raw line in which `c` occurs, the date-time merge of
`getRawData` replaces exactly the first occurrence of `c` by a single space:
splitting the cleaned line by `c` yields the original fields with the first
two merged into one space-joined token, hence one field fewer. -/
theorem cumulus_first_delimiter_merge (c : Char) (line : String)
    (hc : c ≠ ' ') (hocc : c ∈ line.data) :
    pySplit c (pyReplaceFirst line (String.mk [c]) " ") =
        mergeFirstTwo (pySplit c line) ∧
    (pySplit c (pyReplaceFirst line (String.mk [c]) " ")).length =
        (pySplit c line).length - 1 := by
  have hdata : (pyReplaceFirst line (String.mk [c]) " ").data =
      replFirst [c] [' '] line.data := rfl
  have hsplit := splitChar_replFirst c hc line.data
  have hlen := mem_splitChar_length c line.data hocc
  have hmain : pySplit c (pyReplaceFirst line (String.mk [c]) " ") =
      mergeFirstTwo (pySplit c line) := by
    unfold pySplit
    rw [hdata, hsplit]
    rcases hr : splitChar c line.data with _ | ⟨f0, fs⟩
    · exact absurd hr (splitChar_ne_nil c line.data)
    · rcases fs with _ | ⟨f1, fs'⟩
      · simp [mergeFirstTwo]
      · simp only [List.map_cons, mergeFirstTwo]
        rw [mk_append, mk_append]
        have hsp : (" " : String).data = [' '] := rfl
        simp [hsp, List.append_assoc]
  refine ⟨hmain, ?_⟩
  rw [hmain]
  rcases hr : pySplit c line with _ | ⟨f0, fs⟩
  · have : splitChar c line.data ≠ [] := splitChar_ne_nil c line.data
    unfold pySplit at hr
    simp at hr
    exact absurd hr this
  · rcases fs with _ | ⟨f1, fs'⟩
    · unfold pySplit at hr
      have : (splitChar c line.data).length = 1 := by
        have := congrArg List.length hr
        simpa using this
      omega
    · simp [mergeFirstTwo]

/-- C5 counterexample: the claim as stated fails (a) when the configured
delimiter is the space character — replacing the first space by a space
changes nothing, so the cleaned line splits into as many fields as the
original, not one fewer — and (b) on a line in which the delimiter does not
occur at all. -/
theorem cumulus_first_delimiter_counterexample :
    ¬ ((pySplit ' ' (pyReplaceFirst "a b c" (String.mk [' ']) " ")).length =
        (pySplit ' ' "a b c").length - 1) ∧
    ¬ ((pySplit ',' (pyReplaceFirst "abc" (String.mk [',']) " ")).length =
        (pySplit ',' "abc").length - 1) := by
  constructor
  · decide
  · decide

theorem except_bind_ok {ε α β : Type} (a : α) (f : α → Except ε β) :
    (Except.ok a >>= f) = f a := rfl

theorem except_bind_error {ε α β : Type} (e : ε) (f : α → Except ε β) :
    ((Except.error e : Except ε α) >>= f) = Except.error e := rfl

theorem resolveTemperature_ok {fmtKeys : List String} {path : String}
    {ud : UnitsSection} {m m' : HeaderMap}
    (h : resolveTemperature fmtKeys path (some ud) m = .ok m') :
    optMem ud.temperature fmtKeys = true ∧
    m'.cur_out_temp.units = ud.temperature ∧
    m'.cur_slp = m.cur_slp ∧
    m'.midnight_rain = m.midnight_rain ∧
    m'.cur_rain_rate = m.cur_rain_rate ∧
    m'.avg_wind_speed = m.avg_wind_speed ∧
    m'.gust_wind_speed = m.gust_wind_speed := by
  simp only [resolveTemperature] at h
  rcases hOpt : optMem ud.temperature fmtKeys with _ | _
  · rw [hOpt, if_neg (by simp)] at h
    exact Except.noConfusion h
  · rw [hOpt, if_pos rfl] at h
    obtain rfl := (Except.ok.inj h).symm
    exact ⟨rfl, rfl, rfl, rfl, rfl, rfl, rfl⟩

theorem resolvePressure_ok {path : String}
    {ud : UnitsSection} {m m' : HeaderMap}
    (h : resolvePressure path (some ud) m = .ok m') :
    optMem ud.pressure ["inHg", "mbar", "hPa"] = true ∧
    m'.cur_slp.units = ud.pressure ∧
    m'.cur_out_temp = m.cur_out_temp ∧
    m'.midnight_rain = m.midnight_rain ∧
    m'.cur_rain_rate = m.cur_rain_rate ∧
    m'.avg_wind_speed = m.avg_wind_speed ∧
    m'.gust_wind_speed = m.gust_wind_speed := by
  simp only [resolvePressure] at h
  rcases hOpt : optMem ud.pressure ["inHg", "mbar", "hPa"] with _ | _
  · rw [hOpt, if_neg (by simp)] at h
    exact Except.noConfusion h
  · rw [hOpt, if_pos rfl] at h
    obtain rfl := (Except.ok.inj h).symm
    exact ⟨rfl, rfl, rfl, rfl, rfl, rfl, rfl⟩

theorem resolveRain_ok {path : String}
    {ud : UnitsSection} {m m' : HeaderMap}
    (h : resolveRain path (some ud) m = .ok m') :
    optMem ud.rain (rain_units_dict.map Prod.fst) = true ∧
    m'.midnight_rain.units = ud.rain ∧
    m'.cur_rain_rate.units =
      ud.rain.bind (fun u => rain_units_dict.lookup u) ∧
    m'.cur_out_temp = m.cur_out_temp ∧
    m'.cur_slp = m.cur_slp ∧
    m'.avg_wind_speed = m.avg_wind_speed ∧
    m'.gust_wind_speed = m.gust_wind_speed := by
  simp only [resolveRain] at h
  rcases hOpt : optMem ud.rain (rain_units_dict.map Prod.fst) with _ | _
  · rw [hOpt, if_neg (by simp)] at h
    exact Except.noConfusion h
  · rw [hOpt, if_pos rfl] at h
    obtain rfl := (Except.ok.inj h).symm
    exact ⟨rfl, rfl, rfl, rfl, rfl, rfl, rfl⟩

theorem resolveSpeed_ok {fmtKeys : List String} {path : String}
    {ud : UnitsSection} {m m' : HeaderMap}
    (h : resolveSpeed fmtKeys path (some ud) m = .ok m') :
    optMem ud.speed fmtKeys = true ∧
    m'.avg_wind_speed.units = ud.speed ∧
    m'.gust_wind_speed.units = ud.speed ∧
    m'.cur_out_temp = m.cur_out_temp ∧
    m'.cur_slp = m.cur_slp ∧
    m'.midnight_rain = m.midnight_rain ∧
    m'.cur_rain_rate = m.cur_rain_rate := by
  simp only [resolveSpeed] at h
  rcases hOpt : optMem ud.speed fmtKeys with _ | _
  · rw [hOpt, if_neg (by simp)] at h
    exact Except.noConfusion h
  · rw [hOpt, if_pos rfl] at h
    obtain rfl := (Except.ok.inj h).symm
    exact ⟨rfl, rfl, rfl, rfl, rfl, rfl, rfl⟩

/-- Successful unit resolution fills every unit-bearing entry of the shared
header map from the declared units of the `[Units]` section. -/
theorem resolveUnits_ok {fmtKeys : List String} {path : String}
    {ud : UnitsSection} {m m' : HeaderMap}
    (h : resolveUnits fmtKeys path (some ud) m = .ok m') :
    m'.cur_out_temp.units = ud.temperature ∧
    m'.cur_slp.units = ud.pressure ∧
    m'.midnight_rain.units = ud.rain ∧
    m'.cur_rain_rate.units =
      ud.rain.bind (fun u => rain_units_dict.lookup u) ∧
    m'.avg_wind_speed.units = ud.speed ∧
    m'.gust_wind_speed.units = ud.speed ∧
    optMem ud.rain (rain_units_dict.map Prod.fst) = true := by
  unfold resolveUnits at h
  rcases h1 : resolveTemperature fmtKeys path (some ud) m with e1 | m1 <;>
    rw [h1] at h
  · rw [except_bind_error] at h
    exact absurd h (by simp)
  rw [except_bind_ok] at h
  rcases h2 : resolvePressure path (some ud) m1 with e2 | m2 <;> rw [h2] at h
  · rw [except_bind_error] at h
    exact absurd h (by simp)
  rw [except_bind_ok] at h
  rcases h3 : resolveRain path (some ud) m2 with e3 | m3 <;> rw [h3] at h
  · rw [except_bind_error] at h
    exact absurd h (by simp)
  rw [except_bind_ok] at h
  obtain ⟨-, hT, hTslp, hTmr, hTrr, hTav, hTgu⟩ := resolveTemperature_ok h1
  obtain ⟨-, hP, hPot, hPmr, hPrr, hPav, hPgu⟩ := resolvePressure_ok h2
  obtain ⟨hRmem, hR, hRrr, hRot, hRslp, hRav, hRgu⟩ := resolveRain_ok h3
  obtain ⟨-, hS1, hS2, hSot, hSslp, hSmr, hSrr⟩ := resolveSpeed_ok h
  refine ⟨?_, ?_, ?_, ?_, hS1, hS2, hRmem⟩
  · rw [hSot, hRot, hPot, hT]
  · rw [hSslp, hRslp, hP]
  · rw [hSmr, hR]
  · rw [hSrr, hRrr]

theorem unknown_ne_noUnits (q u path q2 path2 : String) :
    unknownUnitsMsg q u path ≠ noUnitsMsg q2 path2 := by
  intro h
  have h1 : (unknownUnitsMsg q u path).data.head? = some 'U' := rfl
  rw [h] at h1
  have h2 : (noUnitsMsg q2 path2).data.head? = some 'N' := rfl
  rw [h2] at h1
  exact absurd h1 (by decide)

theorem optMem_some_iff (u : String) (keys : List String) :
    optMem (some u) keys = true ↔ u ∈ keys := by
  simp [optMem, List.contains]

theorem optMem_some_false (u : String) (keys : List String) (h : u ∉ keys) :
    optMem (some u) keys = false := by
  cases hb : optMem (some u) keys
  · rfl
  · exact absurd ((optMem_some_iff u keys).mp hb) h

/-- C2: for each of the four quantities, resolving a declared unit string
that is a member of that quantity's allowed set (membership in
`default_unit_format_dict`, kept abstract as `fmtKeys`, for temperature and
speed; the literal list for pressure; the `rain_units_dict` keys for rain)
succeeds and stores that very identifier — still a member of the set — in
the header map, while resolving a declared unit outside the set fails with
the `weewx.UnitError` message naming that quantity. -/
theorem cumulus_unit_resolution_roundtrip (fmtKeys : List String)
    (path : String) (ud : UnitsSection) (m : HeaderMap) :
    (∀ u, ud.temperature = some u → u ∈ fmtKeys →
        ∃ m', resolveTemperature fmtKeys path (some ud) m = .ok m' ∧
          m'.cur_out_temp.units = some u ∧ u ∈ fmtKeys) ∧
    (∀ u, ud.temperature = some u → u ∉ fmtKeys →
        resolveTemperature fmtKeys path (some ud) m =
          .error (unknownUnitsMsg "temperature" u path)) ∧
    (∀ u, ud.pressure = some u → u ∈ ["inHg", "mbar", "hPa"] →
        ∃ m', resolvePressure path (some ud) m = .ok m' ∧
          m'.cur_slp.units = some u ∧ u ∈ ["inHg", "mbar", "hPa"]) ∧
    (∀ u, ud.pressure = some u → u ∉ ["inHg", "mbar", "hPa"] →
        resolvePressure path (some ud) m =
          .error (unknownUnitsMsg "pressure" u path)) ∧
    (∀ u, ud.rain = some u → u ∈ rain_units_dict.map Prod.fst →
        ∃ m', resolveRain path (some ud) m = .ok m' ∧
          m'.midnight_rain.units = some u ∧
          u ∈ rain_units_dict.map Prod.fst) ∧
    (∀ u, ud.rain = some u → u ∉ rain_units_dict.map Prod.fst →
        resolveRain path (some ud) m =
          .error (unknownUnitsMsg "rain" u path)) ∧
    (∀ u, ud.speed = some u → u ∈ fmtKeys →
        ∃ m', resolveSpeed fmtKeys path (some ud) m = .ok m' ∧
          m'.avg_wind_speed.units = some u ∧ u ∈ fmtKeys) ∧
    (∀ u, ud.speed = some u → u ∉ fmtKeys →
        resolveSpeed fmtKeys path (some ud) m =
          .error (unknownUnitsMsg "speed" u path)) := by
  refine ⟨?_, ?_, ?_, ?_, ?_, ?_, ?_, ?_⟩
  · intro u hu hmem
    have hOpt : optMem ud.temperature fmtKeys = true := by
      rw [hu]
      exact (optMem_some_iff u fmtKeys).mpr hmem
    rcases hres : resolveTemperature fmtKeys path (some ud) m with e | mr
    · exfalso
      simp only [resolveTemperature] at hres
      rw [hOpt, if_pos rfl] at hres
      exact Except.noConfusion hres
    · exact ⟨mr, rfl, by rw [(resolveTemperature_ok hres).2.1, hu], hmem⟩
  · intro u hu hmem
    simp only [resolveTemperature]
    rw [hu, optMem_some_false u fmtKeys hmem, if_neg (by simp)]
    rfl
  · intro u hu hmem
    have hOpt : optMem ud.pressure ["inHg", "mbar", "hPa"] = true := by
      rw [hu]
      exact (optMem_some_iff u _).mpr hmem
    rcases hres : resolvePressure path (some ud) m with e | mr
    · exfalso
      simp only [resolvePressure] at hres
      rw [hOpt, if_pos rfl] at hres
      exact Except.noConfusion hres
    · exact ⟨mr, rfl, by rw [(resolvePressure_ok hres).2.1, hu], hmem⟩
  · intro u hu hmem
    simp only [resolvePressure]
    rw [hu, optMem_some_false u _ hmem, if_neg (by simp)]
    rfl
  · intro u hu hmem
    have hOpt : optMem ud.rain (rain_units_dict.map Prod.fst) = true := by
      rw [hu]
      exact (optMem_some_iff u _).mpr hmem
    rcases hres : resolveRain path (some ud) m with e | mr
    · exfalso
      simp only [resolveRain] at hres
      rw [hOpt, if_pos rfl] at hres
      exact Except.noConfusion hres
    · exact ⟨mr, rfl, by rw [(resolveRain_ok hres).2.1, hu], hmem⟩
  · intro u hu hmem
    simp only [resolveRain]
    rw [hu, optMem_some_false u _ hmem, if_neg (by simp)]
    rfl
  · intro u hu hmem
    have hOpt : optMem ud.speed fmtKeys = true := by
      rw [hu]
      exact (optMem_some_iff u fmtKeys).mpr hmem
    rcases hres : resolveSpeed fmtKeys path (some ud) m with e | mr
    · exfalso
      simp only [resolveSpeed] at hres
      rw [hOpt, if_pos rfl] at hres
      exact Except.noConfusion hres
    · exact ⟨mr, rfl, by rw [(resolveSpeed_ok hres).2.1, hu], hmem⟩
  · intro u hu hmem
    simp only [resolveSpeed]
    rw [hu, optMem_some_false u fmtKeys hmem, if_neg (by simp)]
    rfl

/-- Witness for `cumulus_unit_resolution_roundtrip`: one valid declaration
(`degree_C`) and one invalid declaration (`furlong`) for temperature. -/
theorem cumulus_unit_resolution_roundtrip_witness :
    ((exampleUnits1.temperature = some "degree_C" ∧
        "degree_C" ∈ exampleFmtKeys) ∧
     ∃ m', resolveTemperature exampleFmtKeys "wee_import.conf"
          (some exampleUnits1) _header_map = .ok m' ∧
        m'.cur_out_temp.units = some "degree_C" ∧
        "degree_C" ∈ exampleFmtKeys) ∧
    (((⟨some "furlong", some "hPa", some "mm", some "km_per_hour"⟩ :
          UnitsSection).temperature = some "furlong" ∧
        "furlong" ∉ exampleFmtKeys) ∧
     resolveTemperature exampleFmtKeys "wee_import.conf"
        (some ⟨some "furlong", some "hPa", some "mm", some "km_per_hour"⟩)
        _header_map =
      .error (unknownUnitsMsg "temperature" "furlong" "wee_import.conf")) :=
  ⟨⟨⟨rfl, by decide⟩,
    (cumulus_unit_resolution_roundtrip exampleFmtKeys "wee_import.conf"
        exampleUnits1 _header_map).1 "degree_C" rfl (by decide)⟩,
   ⟨⟨rfl, by decide⟩,
    (cumulus_unit_resolution_roundtrip exampleFmtKeys "wee_import.conf"
        ⟨some "furlong", some "hPa", some "mm", some "km_per_hour"⟩
        _header_map).2.1 "furlong" rfl (by decide)⟩⟩

/-- C6: when construction succeeds, the rain-rate unit is derived from the
declared rain accumulation unit through the fixed lookup `rain_units_dict`
(`inch` to `inch_per_hour`, `mm` to `mm_per_hour`): the `midnight_rain`
entry carries the declared unit and the `cur_rain_rate` entry carries the
looked-up per-hour unit. -/
theorem cumulus_rain_rate_lookup (fmtKeys : List String) (path : String)
    (ud : UnitsSection) (m m' : HeaderMap) (u : String)
    (hu : ud.rain = some u)
    (h : resolveUnits fmtKeys path (some ud) m = .ok m') :
    rain_units_dict.lookup "inch" = some "inch_per_hour" ∧
    rain_units_dict.lookup "mm" = some "mm_per_hour" ∧
    m'.midnight_rain.units = some u ∧
    m'.cur_rain_rate.units = rain_units_dict.lookup u := by
  obtain ⟨-, -, hmr, hrr, -, -, -⟩ := resolveUnits_ok h
  refine ⟨rfl, rfl, ?_, ?_⟩
  · rw [hmr, hu]
  · rw [hrr, hu]
    rfl

/-- Witness for `cumulus_rain_rate_lookup` at the declared rain unit `mm`. -/
theorem cumulus_rain_rate_lookup_witness :
    (exampleUnits1.rain = some "mm" ∧
     resolveUnits exampleFmtKeys "wee_import.conf" (some exampleUnits1)
        _header_map = .ok exampleMap1) ∧
    (exampleMap1.midnight_rain.units = some "mm" ∧
     exampleMap1.cur_rain_rate.units = rain_units_dict.lookup "mm") :=
  ⟨⟨rfl, rfl⟩,
   ⟨(cumulus_rain_rate_lookup exampleFmtKeys "wee_import.conf" exampleUnits1
       _header_map exampleMap1 "mm" rfl rfl).2.2.1,
    (cumulus_rain_rate_lookup exampleFmtKeys "wee_import.conf" exampleUnits1
       _header_map exampleMap1 "mm" rfl rfl).2.2.2⟩⟩

/-- C9: `_header_map` is a class attribute and `__init__` mutates the very
dictionary the attribute references (it assigns items, never a fresh
dictionary), so the map is shared state across constructions; it is
therefore threaded through `resolveUnits` as explicit state.  Two
consecutive constructions with different declared temperature units leave
the shared map holding the second declaration, overwriting the units the
first construction stored. -/
theorem cumulus_header_map_shared_overwrite (fmtKeys : List String)
    (path1 path2 : String) (ud1 ud2 : UnitsSection) (m0 m1 m2 : HeaderMap)
    (t1 t2 : String)
    (h1 : resolveUnits fmtKeys path1 (some ud1) m0 = .ok m1)
    (h2 : resolveUnits fmtKeys path2 (some ud2) m1 = .ok m2)
    (ht1 : ud1.temperature = some t1) (ht2 : ud2.temperature = some t2)
    (hne : t1 ≠ t2) :
    m1.cur_out_temp.units = some t1 ∧
    m2.cur_out_temp.units = some t2 ∧
    m2.cur_out_temp.units ≠ m1.cur_out_temp.units := by
  obtain ⟨hA, -, -, -, -, -, -⟩ := resolveUnits_ok h1
  obtain ⟨hB, -, -, -, -, -, -⟩ := resolveUnits_ok h2
  refine ⟨by rw [hA, ht1], by rw [hB, ht2], ?_⟩
  rw [hA, ht1, hB, ht2]
  intro hEq
  exact hne (Option.some.inj hEq).symm

/-- Witness for `cumulus_header_map_shared_overwrite`: a `degree_C`
construction followed by a `degree_F` construction over the shared map. -/
theorem cumulus_header_map_shared_overwrite_witness :
    (resolveUnits exampleFmtKeys "wee_import.conf" (some exampleUnits1)
        _header_map = .ok exampleMap1 ∧
     resolveUnits exampleFmtKeys "wee_import.conf" (some exampleUnits2)
        exampleMap1 = .ok exampleMap2 ∧
     exampleUnits1.temperature = some "degree_C" ∧
     exampleUnits2.temperature = some "degree_F" ∧
     "degree_C" ≠ "degree_F") ∧
    (exampleMap1.cur_out_temp.units = some "degree_C" ∧
     exampleMap2.cur_out_temp.units = some "degree_F" ∧
     exampleMap2.cur_out_temp.units ≠ exampleMap1.cur_out_temp.units) :=
  ⟨⟨rfl, rfl, rfl, rfl, by decide⟩,
   cumulus_header_map_shared_overwrite exampleFmtKeys "wee_import.conf"
     "wee_import.conf" exampleUnits1 exampleUnits2 _header_map exampleMap1
     exampleMap2 "degree_C" "degree_F" rfl rfl rfl rfl (by decide)⟩

/-- C10: the "No units specified" branch of each quantity fires exactly when
the whole `[Units]` section is absent (the `KeyError` of the subscript,
caught by the bare `except`).  When the section is present but lacks the
quantity key, `.get` returns `None` without raising, `None` fails the
membership test, and construction fails through the "Unknown units" branch
with the unit rendered as `None`. -/
theorem cumulus_no_units_branch (fmtKeys : List String) (path : String)
    (m : HeaderMap) (ud : UnitsSection) :
    (resolveTemperature fmtKeys path none m =
        .error (noUnitsMsg "temperature" path) ∧
     resolvePressure path none m = .error (noUnitsMsg "pressure" path) ∧
     resolveRain path none m = .error (noUnitsMsg "rain" path) ∧
     resolveSpeed fmtKeys path none m = .error (noUnitsMsg "speed" path)) ∧
    (ud.temperature = none →
        resolveTemperature fmtKeys path (some ud) m =
          .error (unknownUnitsMsg "temperature" "None" path)) ∧
    (ud.pressure = none →
        resolvePressure path (some ud) m =
          .error (unknownUnitsMsg "pressure" "None" path)) ∧
    (ud.rain = none →
        resolveRain path (some ud) m =
          .error (unknownUnitsMsg "rain" "None" path)) ∧
    (ud.speed = none →
        resolveSpeed fmtKeys path (some ud) m =
          .error (unknownUnitsMsg "speed" "None" path)) ∧
    (resolveTemperature fmtKeys path (some ud) m ≠
        .error (noUnitsMsg "temperature" path)) ∧
    (resolvePressure path (some ud) m ≠
        .error (noUnitsMsg "pressure" path)) ∧
    (resolveRain path (some ud) m ≠ .error (noUnitsMsg "rain" path)) ∧
    (resolveSpeed fmtKeys path (some ud) m ≠
        .error (noUnitsMsg "speed" path)) := by
  refine ⟨⟨rfl, rfl, rfl, rfl⟩, ?_, ?_, ?_, ?_, ?_, ?_, ?_, ?_⟩
  · intro h
    simp only [resolveTemperature]
    rw [h, if_neg (by simp [optMem])]
    rfl
  · intro h
    simp only [resolvePressure]
    rw [h, if_neg (by simp [optMem])]
    rfl
  · intro h
    simp only [resolveRain]
    rw [h, if_neg (by simp [optMem])]
    rfl
  · intro h
    simp only [resolveSpeed]
    rw [h, if_neg (by simp [optMem])]
    rfl
  · simp only [resolveTemperature]
    rcases hb : optMem ud.temperature fmtKeys with _ | _
    · rw [if_neg (by simp)]
      intro hEq
      exact unknown_ne_noUnits _ _ _ _ _ (Except.error.inj hEq)
    · rw [if_pos rfl]
      intro hEq
      exact Except.noConfusion hEq
  · simp only [resolvePressure]
    rcases hb : optMem ud.pressure ["inHg", "mbar", "hPa"] with _ | _
    · rw [if_neg (by simp)]
      intro hEq
      exact unknown_ne_noUnits _ _ _ _ _ (Except.error.inj hEq)
    · rw [if_pos rfl]
      intro hEq
      exact Except.noConfusion hEq
  · simp only [resolveRain]
    rcases hb : optMem ud.rain (rain_units_dict.map Prod.fst) with _ | _
    · rw [if_neg (by simp)]
      intro hEq
      exact unknown_ne_noUnits _ _ _ _ _ (Except.error.inj hEq)
    · rw [if_pos rfl]
      intro hEq
      exact Except.noConfusion hEq
  · simp only [resolveSpeed]
    rcases hb : optMem ud.speed fmtKeys with _ | _
    · rw [if_neg (by simp)]
      intro hEq
      exact unknown_ne_noUnits _ _ _ _ _ (Except.error.inj hEq)
    · rw [if_pos rfl]
      intro hEq
      exact Except.noConfusion hEq

/-- Witness for `cumulus_no_units_branch`: a present `[Units]` section with
no `temperature` key fails through the "Unknown units" branch rendering
`None`. -/
theorem cumulus_no_units_branch_witness :
    ((⟨none, some "hPa", some "mm", some "km_per_hour"⟩ :
        UnitsSection).temperature = none) ∧
    resolveTemperature exampleFmtKeys "wee_import.conf"
        (some ⟨none, some "hPa", some "mm", some "km_per_hour"⟩)
        _header_map =
      .error (unknownUnitsMsg "temperature" "None" "wee_import.conf") :=
  ⟨rfl,
   (cumulus_no_units_branch exampleFmtKeys "wee_import.conf" _header_map
      ⟨none, some "hPa", some "mm", some "km_per_hour"⟩).2.1 rfl⟩

/-- Witness for `cumulus_first_delimiter_merge` at the delimiter `,` and the
scenario line of the specification. -/
theorem cumulus_first_delimiter_merge_witness :
    ((',' ≠ ' ') ∧ ',' ∈ ("01/01/16,00:00,5.2" : String).data) ∧
    (pySplit ',' (pyReplaceFirst "01/01/16,00:00,5.2" (String.mk [',']) " ") =
        mergeFirstTwo (pySplit ',' "01/01/16,00:00,5.2") ∧
     (pySplit ','
        (pyReplaceFirst "01/01/16,00:00,5.2" (String.mk [',']) " ")).length =
        (pySplit ',' "01/01/16,00:00,5.2").length - 1) :=
  ⟨⟨by decide, by decide⟩,
   cumulus_first_delimiter_merge ',' "01/01/16,00:00,5.2" (by decide) (by decide)⟩

/-- C4: the cleanup loop of `getRawData` keeps exactly the lines that are not
blank after decimal-separator replacement (a blank line from `readlines` is
the single newline character), and passes every kept line — with its first
delimiter occurrence replaced — on to the row parser, in order.  Stated as:
the loop equals replacement, then the blank-line filter, then the
first-delimiter merge, over the whole input. -/
theorem cumulus_blank_lines_dropped (decimal : String) (delim : Char)
    (raw : List String) :
    cleanData decimal delim raw =
      ((raw.map (fun r => pyReplace r decimal ".")).filter
          (fun l => l ≠ "\n")).map
        (fun l => pyReplaceFirst l (String.mk [delim]) " ") := by
  induction raw with
  | nil => rfl
  | cons row rest ih =>
    by_cases h : pyReplace row decimal "." = "\n"
    · simp [cleanData, h, ih]
    · simp [cleanData, h, ih]

instance : IsTrans (String × String × Nat) keyLE where
  trans a b c hab hbc := by
    rcases hab with h1 | ⟨h1, h2⟩ <;> rcases hbc with h3 | ⟨h3, h4⟩
    · exact Or.inl (lt_trans h1 h3)
    · refine Or.inl ?_
      have : b.2.1.data = c.2.1.data := congrArg String.data h3
      unfold pyStrLt at h1 ⊢
      rw [← this]
      exact h1
    · refine Or.inl ?_
      have : a.2.1.data = b.2.1.data := congrArg String.data h1
      unfold pyStrLt at h3 ⊢
      rw [this]
      exact h3
    · exact Or.inr ⟨h1.trans h3, le_trans h2 h4⟩

instance : IsTotal (String × String × Nat) keyLE where
  total a b := by
    rcases lt_trichotomy a.2.1.data b.2.1.data with h | h | h
    · exact Or.inl (Or.inl h)
    · have hEq : a.2.1 = b.2.1 := String.ext h
      rcases Nat.le_total a.2.2 b.2.2 with h2 | h2
      · exact Or.inl (Or.inr ⟨hEq, h2⟩)
      · exact Or.inr (Or.inr ⟨hEq.symm, h2⟩)
    · exact Or.inr (Or.inl h)

theorem buildTemp_ok {files : List String}
    {temp : List (String × String × Nat)} (h : buildTemp files = some temp) :
    temp.map (fun a => a.1) = files ∧
    ∀ a ∈ temp, a.2.1 = pySliceNeg a.1 9 7 ∧
      strptimeMonth (pySliceNeg a.1 12 9) = some a.2.2 := by
  induction files generalizing temp with
  | nil =>
    obtain rfl : ([] : List (String × String × Nat)) = temp :=
      Option.some.inj h
    exact ⟨rfl, by simp⟩
  | cons fn rest ih =>
    simp only [buildTemp] at h
    rcases hmo : strptimeMonth (pySliceNeg fn 12 9) with _ | mo <;>
      rw [hmo] at h
    · exact Option.noConfusion h
    rcases hb : buildTemp rest with _ | t <;> rw [hb] at h
    · exact Option.noConfusion h
    obtain rfl := (Option.some.inj h).symm
    obtain ⟨ih1, ih2⟩ := ih hb
    refine ⟨by rw [List.map_cons, ih1], ?_⟩
    intro a ha
    rcases List.mem_cons.mp ha with h' | h'
    · subst h'
      exact ⟨rfl, hmo⟩
    · exact ih2 a h'

theorem fileKey_of_shape {a : String × String × Nat}
    (h1 : a.2.1 = pySliceNeg a.1 9 7)
    (h2 : strptimeMonth (pySliceNeg a.1 12 9) = some a.2.2) :
    fileKey a.1 = (a.2.1, a.2.2) := by
  unfold fileKey
  rw [h2, ← h1]
  rfl

theorem sortLogList_spec {files out : List String}
    (hs : sortLogList files = some out) :
    out.Perm files ∧ out.Pairwise fileKeyLE := by
  unfold sortLogList at hs
  rcases hb : buildTemp files with _ | temp <;> rw [hb] at hs
  · exact Option.noConfusion hs
  simp only [Option.map_some'] at hs
  obtain rfl := (Option.some.inj hs).symm
  obtain ⟨hmap, hshape⟩ := buildTemp_ok hb
  constructor
  · have hperm := (List.perm_insertionSort keyLE temp).map (fun a => a.1)
    rw [hmap] at hperm
    exact hperm
  · have hsorted : List.Pairwise keyLE (List.insertionSort keyLE temp) :=
      List.sorted_insertionSort keyLE temp
    have hmem : ∀ a ∈ List.insertionSort keyLE temp, a ∈ temp := by
      intro a ha
      exact (List.perm_insertionSort keyLE temp).subset ha
    rw [List.pairwise_map]
    refine hsorted.imp_of_mem ?_
    intro a b ha hb hk
    obtain ⟨ha1, ha2⟩ := hshape a (hmem a ha)
    obtain ⟨hb1, hb2⟩ := hshape b (hmem b hb)
    unfold fileKeyLE
    rw [fileKey_of_shape ha1 ha2, fileKey_of_shape hb1 hb2]
    exact hk

theorem eq_of_perm_of_keySorted {l1 l2 : List String}
    (hp : l1.Perm l2) (h1 : l1.Pairwise fileKeyLE) (h2 : l2.Pairwise fileKeyLE)
    (hnd : (l1.map fileKey).Nodup) : l1 = l2 := by
  induction l1 generalizing l2 with
  | nil => exact hp.nil_eq
  | cons a t1 ih =>
    have ha2 : a ∈ l2 := hp.subset (List.mem_cons_self a t1)
    cases l2 with
    | nil => exact absurd ha2 (List.not_mem_nil a)
    | cons b t2 =>
      by_cases hab : a = b
      · subst hab
        have hp' := hp.cons_inv
        rw [List.map_cons] at hnd
        have hres := ih hp' (List.pairwise_cons.mp h1).2
          (List.pairwise_cons.mp h2).2 (List.nodup_cons.mp hnd).2
        rw [hres]
      · have hat2 : a ∈ t2 := by
          rcases List.mem_cons.mp ha2 with h | h
          · exact absurd h hab
          · exact h
        have hbt1 : b ∈ t1 := by
          have hb1 : b ∈ a :: t1 := hp.symm.subset (List.mem_cons_self b t2)
          rcases List.mem_cons.mp hb1 with h | h
          · exact absurd h.symm hab
          · exact h
        have hab' : fileKeyLE a b := (List.pairwise_cons.mp h1).1 b hbt1
        have hba' : fileKeyLE b a := (List.pairwise_cons.mp h2).1 a hat2
        have hkey : fileKey a = fileKey b := by
          rcases hab' with h1' | ⟨h1', h2'⟩ <;>
            rcases hba' with h3' | ⟨h3', h4'⟩
          · exact absurd h3' (lt_asymm h1')
          · exfalso
            have hd : (fileKey b).1.data = (fileKey a).1.data :=
              congrArg String.data h3'
            unfold pyStrLt at h1'
            rw [hd] at h1'
            exact lt_irrefl _ h1'
          · exfalso
            have hd : (fileKey a).1.data = (fileKey b).1.data :=
              congrArg String.data h1'
            unfold pyStrLt at h3'
            rw [hd] at h3'
            exact lt_irrefl _ h3'
          · exact Prod.ext_iff.mpr ⟨h1', le_antisymm h2' h4'⟩
        exfalso
        have hmemk : fileKey a ∈ t1.map fileKey := by
          rw [hkey]
          exact List.mem_map_of_mem fileKey hbt1
        rw [List.map_cons] at hnd
        exact (List.nodup_cons.mp hnd).1 hmemk

/-- C3: for every list of monthly-log file names (however the directory
listing ordered them) on which the sort-key extraction succeeds,
`self.log_list` contains exactly those files, ordered ascending by the
two-part key — the two-character year fragment at offsets `[-9:-7]`
compared as a string, then the month number of the abbreviation at
`[-12:-9]` — and when the derived keys are pairwise distinct the result is
the same for any two listing orders of the same files. -/
theorem cumulus_log_list_sorted (files out : List String)
    (hs : sortLogList files = some out) :
    out.Perm files ∧ out.Pairwise fileKeyLE ∧
    (∀ files2 out2, files.Perm files2 → sortLogList files2 = some out2 →
        (files.map fileKey).Nodup → out = out2) := by
  obtain ⟨hp1, hq1⟩ := sortLogList_spec hs
  refine ⟨hp1, hq1, ?_⟩
  intro files2 out2 hpf hs2 hndk
  obtain ⟨hp2, hq2⟩ := sortLogList_spec hs2
  refine eq_of_perm_of_keySorted ?_ hq1 hq2 ?_
  · exact (hp1.trans hpf).trans hp2.symm
  · exact ((hp1.map fileKey).nodup_iff).mpr hndk

/-- Witness for `cumulus_log_list_sorted`: two monthly logs listed
newest-first come out oldest-first. -/
theorem cumulus_log_list_sorted_witness :
    sortLogList ["/d/Feb16log.txt", "/d/Jan16log.txt"] =
      some ["/d/Jan16log.txt", "/d/Feb16log.txt"] ∧
    (["/d/Jan16log.txt", "/d/Feb16log.txt"] : List String).Perm
      ["/d/Feb16log.txt", "/d/Jan16log.txt"] ∧
    List.Pairwise fileKeyLE ["/d/Jan16log.txt", "/d/Feb16log.txt"] :=
  ⟨by decide,
   (cumulus_log_list_sorted ["/d/Feb16log.txt", "/d/Jan16log.txt"]
      ["/d/Jan16log.txt", "/d/Feb16log.txt"] (by decide)).1,
   (cumulus_log_list_sorted ["/d/Feb16log.txt", "/d/Jan16log.txt"]
      ["/d/Jan16log.txt", "/d/Feb16log.txt"] (by decide)).2.1⟩

/-- C7: when no directory entry matches the monthly-log naming pattern,
construction fails with the `weeimport.WeeImportIOError` whose message
names the configured directory (the embedding of `__init__` reads no file
content anywhere — the catalog is built from the directory listing alone). -/
theorem cumulus_no_logs_error (source : String) (dirFiles : List String)
    (h : ∀ f ∈ dirFiles, globMatch f = false) :
    cumulusLogCatalog source dirFiles =
      some (Except.error
        ("No Cumulus monthly logs found in directory '" ++ source ++ "'.")) ∧
    ∃ pre post,
      "No Cumulus monthly logs found in directory '" ++ source ++ "'." =
        pre ++ source ++ post := by
  have hfil : dirFiles.filter globMatch = [] := by
    rw [List.filter_eq_nil_iff]
    intro a ha
    simp [h a ha]
  constructor
  · unfold cumulusLogCatalog
    rw [hfil]
    rfl
  · exact ⟨"No Cumulus monthly logs found in directory '", "'.", rfl⟩

/-- Witness for `cumulus_no_logs_error`: a directory holding no file that
matches `?????log.txt`. -/
theorem cumulus_no_logs_error_witness :
    (∀ f ∈ ["readme.md", "Jan16log.csv"], globMatch f = false) ∧
    cumulusLogCatalog "/var/cumulus" ["readme.md", "Jan16log.csv"] =
      some (Except.error
        ("No Cumulus monthly logs found in directory '" ++ "/var/cumulus" ++
          "'.")) :=
  ⟨by decide,
   (cumulus_no_logs_error "/var/cumulus" ["readme.md", "Jan16log.csv"]
      (by decide)).1⟩

/-- C8: over a non-empty catalog (a `glob` listing never repeats a path, so
the catalog has no duplicates), `period_generator` yields exactly the
catalog's files in order; the first-period flag is true exactly on the first
yield, the last-period flag exactly on the last yield, and for a one-file
catalog the single yield carries both flags. -/
theorem cumulus_period_flags (l : List String) (hne : l ≠ [])
    (hnd : l.Nodup) :
    (period_generator l).map (fun t => t.2.2) = l ∧
    (∀ i (hi : i < (period_generator l).length) (hi' : i < l.length),
        ((period_generator l).get ⟨i, hi⟩).1 = decide (i = 0) ∧
        ((period_generator l).get ⟨i, hi⟩).2.1 =
          decide (i = l.length - 1) ∧
        ((period_generator l).get ⟨i, hi⟩).2.2 = l.get ⟨i, hi'⟩) ∧
    (∀ f, period_generator [f] = [(true, true, f)]) := by
  have hlen0 : 0 < l.length := List.length_pos.mpr hne
  refine ⟨?_, ?_, ?_⟩
  · simp [period_generator, List.map_map, Function.comp_def]
  · intro i hi hi'
    have hval : (period_generator l).get ⟨i, hi⟩ =
        (decide (l.get ⟨i, hi'⟩ = l.headD ""),
         decide (l.get ⟨i, hi'⟩ = l.getLastD ""), l.get ⟨i, hi'⟩) := by
      simp [period_generator, List.get_eq_getElem, List.getElem_map]
    rw [hval]
    have hhead : l.headD "" = l.get ⟨0, hlen0⟩ := by
      cases l with
      | nil => exact absurd rfl hne
      | cons a t => rfl
    have hlast : l.getLastD "" = l.get ⟨l.length - 1, by omega⟩ := by
      rw [List.getLastD_eq_getLast?, List.getLast?_eq_getLast l hne,
        Option.getD_some, List.getLast_eq_getElem, List.get_eq_getElem]
    refine ⟨?_, ?_, rfl⟩
    · rw [hhead, decide_eq_decide, List.get_eq_getElem, List.get_eq_getElem]
      exact hnd.getElem_inj_iff
    · rw [hlast, decide_eq_decide, List.get_eq_getElem, List.get_eq_getElem]
      exact hnd.getElem_inj_iff
  · intro f
    simp [period_generator]

/-- Witness for `cumulus_period_flags` on a two-file catalog. -/
theorem cumulus_period_flags_witness :
    ((["/d/Jan16log.txt", "/d/Feb16log.txt"] : List String) ≠ [] ∧
     (["/d/Jan16log.txt", "/d/Feb16log.txt"] : List String).Nodup) ∧
    (period_generator ["/d/Jan16log.txt", "/d/Feb16log.txt"]).map
        (fun t => t.2.2) = ["/d/Jan16log.txt", "/d/Feb16log.txt"] ∧
    (∀ f, period_generator [f] = [(true, true, f)]) :=
  ⟨⟨by decide, by decide⟩,
   (cumulus_period_flags ["/d/Jan16log.txt", "/d/Feb16log.txt"] (by decide)
      (by decide)).1,
   (cumulus_period_flags ["/d/Jan16log.txt", "/d/Feb16log.txt"] (by decide)
      (by decide)).2.2⟩

/-- C1 (amended): `getRawData` rebuilds the field map on every call —
`self.map = self.parseMap(...)` runs unconditionally at line 292 — so the
map always reflects the period just processed, not only the first period of
the run. -/
theorem cumulus_map_rebuilt_each_period (decimal : String) (delim : Char)
    (hm : HeaderMap) (st : RunState) (raw_data : List String) :
    (getRawData decimal delim hm st raw_data).1.map =
      some (parseMap hm
        (dictReaderRows delim (cleanData decimal delim raw_data))) := rfl

/-- C1 counterexample: with the map already built from a first period whose
rows carry a date-time and a temperature, a `getRawData` call on a second
period whose rows carry only a date-time reassigns `self.map` to a
different value — the map built from the first period is neither final nor
read-only. -/
theorem cumulus_map_not_readonly_counterexample :
    ((getRawData "." ',' _header_map
        ((getRawData "." ',' _header_map ⟨none⟩
            ["01/01/16,00:00,5.2\n"]).1)
        ["01/02/16,00:00\n"]).1).map ≠
      ((getRawData "." ',' _header_map ⟨none⟩
          ["01/01/16,00:00,5.2\n"]).1).map := by
  decide

end Cumulus
